import Mathlib

/-!
Shallow embedding of `src/kubebanana.py` (a Streamlit app that sends a prompt
plus up to four images to a generative-image API and persists the returned
images to one of three backends).

External effects (environment variables, `os.path.isdir`, the MinIO client,
`datetime.now()`, file writes, the upstream `generate_content` call) are
modelled as explicit inputs: records of oracle functions whose results the
Python program merely consumes.  All program logic (truthiness tests, the
backend priority selection, the response-part loop, filename derivation and
the persistence dispatch) is translated line by line from the source.
-/

namespace Kubebanana

/-- Python truthiness of an optional string (an env var that may be unset,
or a part attribute): `None` and `""` are falsy. -/
def truthy : Option String → Bool
  | none => false
  | some s => !s.isEmpty

/-- The three persistence backends of the priority selection
(`save_mode` is one of "filesystem" / "s3" / "memory", lines 52-58). -/
inductive SaveMode
  | filesystem
  | s3
  | memory
  deriving DecidableEq, Repr

/-- The constructed MinIO client handle (`Minio(...)`, lines 35-40):
we record the construction arguments. -/
structure MinioClient where
  endpoint : String
  accessKey : String
  secretKey : String
  secure : Bool
  deriving DecidableEq, Repr

/-- The environment variables the program reads (lines 25-29, 49).
`none` models an unset variable. -/
structure Env where
  S3_ENDPOINT : Option String
  S3_ACCESS_KEY : Option String
  S3_SECRET_KEY : Option String
  S3_BUCKET_NAME : Option String
  S3_SECURE : Option String
  FILESYSTEM_SAVE_PATH : Option String
  deriving DecidableEq, Repr

/-- Python `str.strip()` (ASCII whitespace model): drop leading and
trailing whitespace characters. -/
def pyStrip (s : String) : String :=
  ⟨(((s.data.dropWhile Char.isWhitespace).reverse.dropWhile
      Char.isWhitespace).reverse)⟩

/-- Python `str.lower()` (ASCII case folding), character by character. -/
def pyLower (s : String) : String :=
  ⟨s.data.map Char.toLower⟩

/-- Line 29: `S3_SECURE = os.getenv("S3_SECURE", "true").lower() == "true"`. -/
def S3_SECURE_flag (v : Option String) : Bool :=
  pyLower (v.getD "true") == "true"

/-- Line 31: `s3_configured = all([S3_ENDPOINT, S3_ACCESS_KEY, S3_SECRET_KEY,
S3_BUCKET_NAME])` (Python truthiness of each). -/
def s3_configured0 (env : Env) : Bool :=
  truthy env.S3_ENDPOINT && truthy env.S3_ACCESS_KEY &&
    truthy env.S3_SECRET_KEY && truthy env.S3_BUCKET_NAME

/-- External facts consumed at startup: the `os.path.isdir` answer and whether
the `try` block of lines 34-42 (client construction, `bucket_exists`,
`make_bucket`) completes without raising. -/
structure StartupWorld where
  isdir : String → Bool
  minioInitOk : Bool

/-- Lines 32-46: `minio_client` and the final value of `s3_configured`.
On any exception the handler sets `minio_client = None` and
`s3_configured = False`. -/
def minioInit (env : Env) (w : StartupWorld) : Option MinioClient × Bool :=
  if s3_configured0 env then
    if w.minioInitOk then
      (some { endpoint := env.S3_ENDPOINT.getD ""
              accessKey := env.S3_ACCESS_KEY.getD ""
              secretKey := env.S3_SECRET_KEY.getD ""
              secure := S3_SECURE_flag env.S3_SECURE }, true)
    else
      (none, false)
  else
    (none, false)

/-- Line 50: `filesystem_configured = bool(FILESYSTEM_SAVE_PATH and
os.path.isdir(FILESYSTEM_SAVE_PATH))` — truthiness of the variable and an
existence-only directory check. -/
def filesystem_configured (env : Env) (w : StartupWorld) : Bool :=
  match env.FILESYSTEM_SAVE_PATH with
  | none => false
  | some p => !p.isEmpty && w.isdir p

/-- The module-level state computed once at startup. -/
structure StartupState where
  s3_configured : Bool
  minio_client : Option MinioClient
  filesystem_configured : Bool
  save_mode : SaveMode
  FILESYSTEM_SAVE_PATH : Option String
  S3_BUCKET_NAME : Option String

/-- Lines 24-58: the startup computation ending in the priority selection
`if filesystem_configured: "filesystem" elif s3_configured: "s3"
else: "memory"`. -/
def startup (env : Env) (w : StartupWorld) : StartupState :=
  let mc := minioInit env w
  { s3_configured := mc.2
    minio_client := mc.1
    filesystem_configured := filesystem_configured env w
    save_mode :=
      if filesystem_configured env w then SaveMode.filesystem
      else if mc.2 then SaveMode.s3
      else SaveMode.memory
    FILESYSTEM_SAVE_PATH := env.FILESYSTEM_SAVE_PATH
    S3_BUCKET_NAME := env.S3_BUCKET_NAME }

/-- A wall-clock reading, as consumed by `datetime.now().strftime(...)`. -/
structure DateTime where
  year : Nat
  month : Nat
  day : Nat
  hour : Nat
  minute : Nat
  second : Nat
  deriving DecidableEq, Repr

/-- Two-digit zero-padded decimal field (strftime `%m`, `%d`, `%H`, `%M`, `%S`). -/
def pad2 (n : Nat) : String :=
  ⟨[Nat.digitChar (n / 10 % 10), Nat.digitChar (n % 10)]⟩

/-- Four-digit zero-padded decimal field (strftime `%Y` for years up to 9999). -/
def pad4 (n : Nat) : String :=
  ⟨[Nat.digitChar (n / 1000 % 10), Nat.digitChar (n / 100 % 10),
    Nat.digitChar (n / 10 % 10), Nat.digitChar (n % 10)]⟩

/-- Line 205: `datetime.now().strftime("%Y%m%d_%H%M%S")`. -/
def strftimeCompact (t : DateTime) : String :=
  pad4 t.year ++ pad2 t.month ++ pad2 t.day ++ "_" ++
    pad2 t.hour ++ pad2 t.minute ++ pad2 t.second

/-- Line 210: `datetime.now().strftime("%Y-%m-%d")`. -/
def strftimeDate (t : DateTime) : String :=
  pad4 t.year ++ "-" ++ pad2 t.month ++ "-" ++ pad2 t.day

/-- One part of the upstream response (lines 191-195).  `text` is truthy
(`some` nonempty) exactly when `hasattr(part, "text") and part.text` holds;
`inline_data` is `some bytes` exactly when
`hasattr(part, "inline_data") and part.inline_data` holds, carrying
`part.inline_data.data`. -/
structure Part where
  text : Option String
  inline_data : Option (List Nat)
  deriving DecidableEq, Repr

/-- External facts consumed while handling one press of the generate button. -/
structure GenWorld where
  /-- `Image.open(BytesIO(b)).convert("RGB")` as a function on raw bytes. -/
  decodeRGB : List Nat → List Nat
  /-- `img.save(buf, format="PNG"); buf.getvalue()` as a function. -/
  encodePNG : List Nat → List Nat
  /-- the value of the k-th `datetime.now()` call inside the part loop. -/
  now : Nat → DateTime
  /-- the host path separator used by `os.path.join`. -/
  pathSep : String
  /-- whether `os.makedirs` + `open(full_path, "wb").write(...)` succeed. -/
  fsWriteOk : String → Bool
  /-- whether `minio_client.put_object` succeeds for a given object key. -/
  s3PutOk : String → Bool
  /-- the outcome of `model.generate_content(contents, stream=False)`. -/
  upstream : Except String (List Part)

/-- The user-visible notices the handler can emit (`st.warning`, `st.success`,
`st.error`, `st.info`, the response-text expander). -/
inductive Event
  | warnEmptyPrompt
  | warnMissingImage1
  | savedFilesystem (full_path : String)
  | savedS3 (key : String)
  | s3UploadFailed
  | memoryOnlyInfo
  | noImageError
  | generationSuccess (numInputs : Nat)
  | responseText (t : String)
  | unexpectedError
  deriving DecidableEq, Repr

/-- The `st.session_state` fields touched by the part loop (lines 196-213). -/
structure SessionState where
  generated_image : Option (List Nat)
  generated_image_bytes : Option (List Nat)
  current_filename : Option String
  deriving DecidableEq, Repr

/-- A byte payload actually written through a persistence backend. -/
structure Artifact where
  backend : SaveMode
  key : String
  contents : List Nat
  contentType : String
  deriving DecidableEq, Repr

/-- Line 229: `base_name.replace("\\", "/")` — the pattern is a single
character, so the replacement maps each backslash character to a slash. -/
def toSlashes (s : String) : String :=
  ⟨s.data.map fun c => if c = '\\' then '/' else c⟩

/-- Lines 204-211: derive `base_name` starting from clock position `tick`;
returns the name and the next clock position (the date-folder variant reads
`datetime.now()` a second time). -/
def buildBaseName (w : GenWorld) (save_with_date_folder : Bool) (tick : Nat) :
    String × Nat :=
  let timestamp := strftimeCompact (w.now tick)
  let fname := "gemini_image_" ++ timestamp ++ ".png"
  if save_with_date_folder then
    (strftimeDate (w.now (tick + 1)) ++ w.pathSep ++ fname, tick + 2)
  else
    (fname, tick + 1)

/-- The loop-local state of the `for part in response.parts` loop. -/
structure LoopState where
  found_image : Bool
  text_output : Option String
  sess : SessionState
  events : List Event
  artifacts : List Artifact
  tick : Nat
  deriving Repr

/-- Lines 191-242: the body of the part loop for one part.  `Except.error`
models an exception escaping to the outer `except Exception` handler of
line 253 (only the filesystem write can raise uncaught; the S3 upload is
wrapped in its own `try`). -/
def stepPart (st : StartupState) (w : GenWorld) (save_with_date_folder : Bool)
    (ls : LoopState) (p : Part) : Except LoopState LoopState :=
  if truthy p.text = true then
    Except.ok { ls with text_output := p.text }
  else
    match p.inline_data with
    | none => Except.ok ls
    | some data =>
      let img := w.decodeRGB data
      let bytes := w.encodePNG img
      let nr := buildBaseName w save_with_date_folder ls.tick
      let base_name := nr.1
      let sess : SessionState :=
        { generated_image := some img
          generated_image_bytes := some bytes
          current_filename := some base_name }
      if st.save_mode = SaveMode.filesystem then
        let full_path := st.FILESYSTEM_SAVE_PATH.getD "" ++ w.pathSep ++ base_name
        if w.fsWriteOk full_path = true then
          Except.ok { found_image := true
                      text_output := ls.text_output
                      sess := sess
                      events := ls.events ++ [Event.savedFilesystem full_path]
                      artifacts := ls.artifacts ++
                        [{ backend := SaveMode.filesystem, key := full_path,
                           contents := bytes, contentType := "image/png" }]
                      tick := nr.2 }
        else
          Except.error { ls with sess := sess, tick := nr.2 }
      else if st.save_mode = SaveMode.s3 ∧ st.minio_client.isSome = true then
        let key := toSlashes base_name
        if w.s3PutOk key = true then
          Except.ok { found_image := true
                      text_output := ls.text_output
                      sess := sess
                      events := ls.events ++ [Event.savedS3 key]
                      artifacts := ls.artifacts ++
                        [{ backend := SaveMode.s3, key := key,
                           contents := bytes, contentType := "image/png" }]
                      tick := nr.2 }
        else
          Except.ok { found_image := true
                      text_output := ls.text_output
                      sess := sess
                      events := ls.events ++ [Event.s3UploadFailed]
                      artifacts := ls.artifacts
                      tick := nr.2 }
      else
        Except.ok { found_image := true
                    text_output := ls.text_output
                    sess := sess
                    events := ls.events ++ [Event.memoryOnlyInfo]
                    artifacts := ls.artifacts
                    tick := nr.2 }

/-- The whole `for part in response.parts` loop; an `Except.error` from a
step aborts the remaining iterations (the exception propagates). -/
def runParts (st : StartupState) (w : GenWorld) (save_with_date_folder : Bool) :
    List Part → LoopState → Except LoopState LoopState
  | [], ls => Except.ok ls
  | p :: rest, ls =>
    match stepPart st w save_with_date_folder ls p with
    | Except.ok ls' => runParts st w save_with_date_folder rest ls'
    | Except.error ls' => Except.error ls'

/-- The two models of the sidebar selectbox (lines 82-86). -/
inductive ModelChoice
  | nanoBananaPro
  | flashImagePreview
  deriving DecidableEq, Repr

/-- The `uploaded_images` session dictionary: one optional decoded image per
slot `img1`..`img4`. -/
structure Uploads where
  img1 : Option (List Nat)
  img2 : Option (List Nat)
  img3 : Option (List Nat)
  img4 : Option (List Nat)
  deriving DecidableEq, Repr

/-- The payload of one `model.generate_content` call: the final prompt and
the uploaded images in slot order (lines 170-181). -/
structure GenRequest where
  prompt : String
  images : List (List Nat)
  deriving DecidableEq, Repr

/-- Everything observable about one press of the generate button:
whether (and with what) the upstream service was called, the notices shown,
the final session state, the artifacts written, and whether the script was
halted (`st.stop`; the handler never halts). -/
structure GenOutcome where
  upstreamCall : Option GenRequest
  events : List Event
  sess : SessionState
  artifacts : List Artifact
  halted : Bool

/-- Lines 175-181: the uploaded images appended to `contents` in slot order
(the `processed` list tracks exactly these slots). -/
def slotImages (uploads : Uploads) : List (List Nat) :=
  [uploads.img1, uploads.img2, uploads.img3, uploads.img4].filterMap id

/-- Lines 170-181: the payload handed to `model.generate_content`: the
trimmed prompt (with the aspect-ratio hint appended for the pro model)
followed by the uploaded images in slot order. -/
def builtRequest (model_choice : ModelChoice) (image_ratio : String)
    (prompt : String) (uploads : Uploads) : GenRequest :=
  { prompt :=
      pyStrip prompt ++
        (if model_choice = ModelChoice.nanoBananaPro then
          "\n\nSpecifications:\n- Aspect Ratio: " ++ image_ratio
        else "")
    images := slotImages uploads }

/-- Lines 188-189: the loop state before the first part. -/
def initLoop (sess0 : SessionState) : LoopState :=
  { found_image := false, text_output := none, sess := sess0,
    events := [], artifacts := [], tick := 0 }

/-- Lines 244-251: the notices shown after the loop finishes normally. -/
def summaryEvents (uploads : Uploads) (fin : LoopState) : List Event :=
  (fin.events ++
    (if fin.found_image then [Event.generationSuccess (slotImages uploads).length]
    else [Event.noImageError])) ++
    (match fin.text_output with
    | some t => if t.isEmpty then [] else [Event.responseText t]
    | none => [])

/-- Lines 162-254: the generate-button handler.  Validation first (trimmed
prompt nonempty, slot-1 image present), then the upstream call, then the
part loop, then the summary notices.  An upstream error or an uncaught
write exception lands in the outer `except Exception` (line 253). -/
def handleGenerate (st : StartupState) (w : GenWorld) (model_choice : ModelChoice)
    (image_ratio : String) (save_with_date_folder : Bool)
    (prompt : String) (uploads : Uploads) (sess0 : SessionState) : GenOutcome :=
  if (pyStrip prompt).isEmpty = true then
    { upstreamCall := none, events := [Event.warnEmptyPrompt],
      sess := sess0, artifacts := [], halted := false }
  else if uploads.img1.isNone = true then
    { upstreamCall := none, events := [Event.warnMissingImage1],
      sess := sess0, artifacts := [], halted := false }
  else
    let req := builtRequest model_choice image_ratio prompt uploads
    match w.upstream with
    | Except.error _ =>
      { upstreamCall := some req, events := [Event.unexpectedError],
        sess := sess0, artifacts := [], halted := false }
    | Except.ok parts =>
      match runParts st w save_with_date_folder parts (initLoop sess0) with
      | Except.error fin =>
        { upstreamCall := some req, events := fin.events ++ [Event.unexpectedError],
          sess := fin.sess, artifacts := fin.artifacts, halted := false }
      | Except.ok fin =>
        { upstreamCall := some req, events := summaryEvents uploads fin,
          sess := fin.sess, artifacts := fin.artifacts, halted := false }

/-! ### Spec-side definitions

The next three definitions restate §4.3 of the specification in its own
words ("the last text part seen wins", "every image part encountered"), to
be compared with what the loop above computes. -/

/-- Spec §4.3: the last truthy text part wins, starting from `acc`. -/
def lastTextWins (parts : List Part) (acc : Option String) : Option String :=
  parts.foldl (fun a p => if truthy p.text then p.text else a) acc

/-- Spec §4.3: the payloads of the parts the loop treats as image parts
(truthy `inline_data` on a part whose `text` is not truthy). -/
def imagePartsData (parts : List Part) : List (List Nat) :=
  parts.filterMap fun p => if truthy p.text then none else p.inline_data

/-- The commentary payload of an event, when it is one. -/
def Event.textPayload : Event → Option String
  | Event.responseText t => some t
  | _ => none

/-- The commentary strings reported to the user in an outcome. -/
def reportedCommentary (r : GenOutcome) : List String :=
  r.events.filterMap Event.textPayload

/-- The backend the dispatch of lines 216-240 actually routes a write to:
the `elif` guard also requires a non-null client. -/
def dispatchTarget (st : StartupState) : SaveMode :=
  if st.save_mode = SaveMode.filesystem then SaveMode.filesystem
  else if st.save_mode = SaveMode.s3 ∧ st.minio_client.isSome = true then SaveMode.s3
  else SaveMode.memory

/-- The events one loop iteration may newly emit, by dispatch target. -/
def loopEventOk (st : StartupState) (e : Event) : Prop :=
  match dispatchTarget st with
  | SaveMode.filesystem => ∃ p, e = Event.savedFilesystem p
  | SaveMode.s3 => (∃ k, e = Event.savedS3 k) ∨ e = Event.s3UploadFailed
  | SaveMode.memory => e = Event.memoryOnlyInfo

/-- The carried loop state of either outcome of the loop. -/
def outState : Except LoopState LoopState → LoopState
  | Except.ok s => s
  | Except.error s => s

/-- Both write oracles succeed for the dispatch target actually selected
(filesystem, or object store with a live client). -/
def writesOk (st : StartupState) (w : GenWorld) : Prop :=
  (st.save_mode = SaveMode.filesystem ∧ ∀ p, w.fsWriteOk p = true) ∨
    (st.save_mode = SaveMode.s3 ∧ st.minio_client.isSome = true ∧
      ∀ k, w.s3PutOk k = true)

/-- The PNG re-encoding of a decoded inline-data payload (lines 195-202). -/
def pngBytes (w : GenWorld) (data : List Nat) : List Nat :=
  w.encodePNG (w.decodeRGB data)

/-- The session-state update performed for an image part whose processing
starts at clock position `tick` (lines 196-213). -/
def imageSess (w : GenWorld) (dateF : Bool) (tick : Nat) (data : List Nat) :
    SessionState :=
  { generated_image := some (w.decodeRGB data)
    generated_image_bytes := some (pngBytes w data)
    current_filename := some (buildBaseName w dateF tick).1 }

/-- Line 217: `full_path = os.path.join(FILESYSTEM_SAVE_PATH, base_name)`
(modelled for a relative `base_name` and a separator-free directory path). -/
def fsFullPath (st : StartupState) (w : GenWorld) (dateF : Bool) (tick : Nat) :
    String :=
  st.FILESYSTEM_SAVE_PATH.getD "" ++ w.pathSep ++ (buildBaseName w dateF tick).1

/-- A string with no backslash character. -/
def backslashFree (s : String) : Prop :=
  '\\' ∉ s.data

/-- An accumulator value the loop can hold as `text_output`: `None` or a
truthy string. -/
def okAcc (o : Option String) : Prop :=
  o = none ∨ truthy o = true

/-! ### Concrete inputs used by the witnesses -/

/-- An environment with only the four object-store variables set. -/
def envS3 : Env :=
  { S3_ENDPOINT := some "minio:9000", S3_ACCESS_KEY := some "ak",
    S3_SECRET_KEY := some "sk", S3_BUCKET_NAME := some "pics",
    S3_SECURE := none, FILESYSTEM_SAVE_PATH := none }

/-- An environment with the filesystem path and all object-store variables set. -/
def envBoth : Env :=
  { S3_ENDPOINT := some "minio:9000", S3_ACCESS_KEY := some "ak",
    S3_SECRET_KEY := some "sk", S3_BUCKET_NAME := some "pics",
    S3_SECURE := none, FILESYSTEM_SAVE_PATH := some "/data" }

/-- A startup world in which every directory exists and MinIO comes up. -/
def wAllOk : StartupWorld :=
  { isdir := fun _ => true, minioInitOk := true }

/-- A startup world in which MinIO initialization raises. -/
def wInitFail : StartupWorld :=
  { isdir := fun _ => true, minioInitOk := false }

/-- An empty session. -/
def sessEmpty : SessionState :=
  { generated_image := none, generated_image_bytes := none,
    current_filename := none }

/-- Uploads with only the mandatory slot-1 image. -/
def uploadsOne : Uploads :=
  { img1 := some [9], img2 := none, img3 := none, img4 := none }

/-- Uploads with no slot-1 image. -/
def uploadsNone : Uploads :=
  { img1 := none, img2 := none, img3 := none, img4 := none }

/-- A response with two text parts and two image parts interleaved. -/
def partsEg : List Part :=
  [{ text := some "hello", inline_data := none },
   { text := none, inline_data := some [1, 2] },
   { text := some "bye", inline_data := none },
   { text := none, inline_data := some [3] }]

/-- A generation world where every write succeeds. -/
def genWOk : GenWorld :=
  { decodeRGB := fun b => b, encodePNG := fun b => b,
    now := fun k => { year := 2024, month := 3, day := 7,
                      hour := 9, minute := 5, second := k },
    pathSep := "/", fsWriteOk := fun _ => true, s3PutOk := fun _ => true,
    upstream := Except.ok partsEg }

/-- A generation world where every filesystem write fails. -/
def genWFsFail : GenWorld :=
  { genWOk with fsWriteOk := fun _ => false }

/-- A generation world where every object-store upload fails. -/
def genWS3Fail : GenWorld :=
  { genWOk with s3PutOk := fun _ => false }

/-- A generation world on a host whose path separator is a backslash. -/
def genWBack : GenWorld :=
  { genWOk with pathSep := "\\" }

/-- A generation world whose response has text but no image part. -/
def genWNoImage : GenWorld :=
  { genWOk with upstream := Except.ok [{ text := some "nope", inline_data := none }] }

/-- A startup state with the filesystem backend selected. -/
def stFS : StartupState :=
  { s3_configured := false, minio_client := none, filesystem_configured := true,
    save_mode := SaveMode.filesystem, FILESYSTEM_SAVE_PATH := some "/data",
    S3_BUCKET_NAME := none }

/-- A startup state with the object-store backend selected and a live client. -/
def stS3 : StartupState :=
  { s3_configured := true
    minio_client := some { endpoint := "minio:9000", accessKey := "ak",
                           secretKey := "sk", secure := true }
    filesystem_configured := false
    save_mode := SaveMode.s3
    FILESYSTEM_SAVE_PATH := none
    S3_BUCKET_NAME := some "pics" }

/-! ### Startup lemmas -/

theorem minioInit_snd (env : Env) (w : StartupWorld) :
    (minioInit env w).2 = (s3_configured0 env && w.minioInitOk) := by
  unfold minioInit
  by_cases h : s3_configured0 env = true <;>
    by_cases h2 : w.minioInitOk = true <;> simp_all

theorem minioInit_isSome (env : Env) (w : StartupWorld) :
    (minioInit env w).1.isSome = (s3_configured0 env && w.minioInitOk) := by
  unfold minioInit
  by_cases h : s3_configured0 env = true <;>
    by_cases h2 : w.minioInitOk = true <;> simp_all

theorem startup_save_mode (env : Env) (w : StartupWorld) :
    (startup env w).save_mode =
      (if filesystem_configured env w then SaveMode.filesystem
      else if s3_configured0 env && w.minioInitOk then SaveMode.s3
      else SaveMode.memory) := by
  simp only [startup, minioInit_snd]

theorem startup_minio_client_isSome (env : Env) (w : StartupWorld) :
    (startup env w).minio_client.isSome =
      (s3_configured0 env && w.minioInitOk) := by
  simp only [startup, minioInit_isSome]

/-! ### One-step equations for the part loop -/

theorem stepPart_text (st : StartupState) (w : GenWorld) (dateF : Bool)
    (ls : LoopState) (p : Part) (ht : truthy p.text = true) :
    stepPart st w dateF ls p = Except.ok { ls with text_output := p.text } := by
  simp [stepPart, ht]

theorem stepPart_skip (st : StartupState) (w : GenWorld) (dateF : Bool)
    (ls : LoopState) (p : Part) (ht : truthy p.text = false)
    (hd : p.inline_data = none) :
    stepPart st w dateF ls p = Except.ok ls := by
  simp [stepPart, ht, hd]

theorem stepPart_img_fs_ok (st : StartupState) (w : GenWorld) (dateF : Bool)
    (ls : LoopState) (p : Part) (data : List Nat)
    (ht : truthy p.text = false) (hd : p.inline_data = some data)
    (hm : st.save_mode = SaveMode.filesystem)
    (hw : w.fsWriteOk (fsFullPath st w dateF ls.tick) = true) :
    stepPart st w dateF ls p = Except.ok
      { found_image := true
        text_output := ls.text_output
        sess := imageSess w dateF ls.tick data
        events := ls.events ++ [Event.savedFilesystem (fsFullPath st w dateF ls.tick)]
        artifacts := ls.artifacts ++
          [{ backend := SaveMode.filesystem, key := fsFullPath st w dateF ls.tick,
             contents := pngBytes w data, contentType := "image/png" }]
        tick := (buildBaseName w dateF ls.tick).2 } := by
  unfold fsFullPath at hw
  simp [stepPart, ht, hd, hm, hw, imageSess, fsFullPath, pngBytes]

theorem stepPart_img_fs_fail (st : StartupState) (w : GenWorld) (dateF : Bool)
    (ls : LoopState) (p : Part) (data : List Nat)
    (ht : truthy p.text = false) (hd : p.inline_data = some data)
    (hm : st.save_mode = SaveMode.filesystem)
    (hw : w.fsWriteOk (fsFullPath st w dateF ls.tick) = false) :
    stepPart st w dateF ls p = Except.error
      { ls with sess := imageSess w dateF ls.tick data,
                tick := (buildBaseName w dateF ls.tick).2 } := by
  unfold fsFullPath at hw
  simp [stepPart, ht, hd, hm, hw, imageSess, pngBytes]

theorem stepPart_img_s3_ok (st : StartupState) (w : GenWorld) (dateF : Bool)
    (ls : LoopState) (p : Part) (data : List Nat)
    (ht : truthy p.text = false) (hd : p.inline_data = some data)
    (hm : st.save_mode = SaveMode.s3) (hc : st.minio_client.isSome = true)
    (hs : w.s3PutOk (toSlashes (buildBaseName w dateF ls.tick).1) = true) :
    stepPart st w dateF ls p = Except.ok
      { found_image := true
        text_output := ls.text_output
        sess := imageSess w dateF ls.tick data
        events := ls.events ++
          [Event.savedS3 (toSlashes (buildBaseName w dateF ls.tick).1)]
        artifacts := ls.artifacts ++
          [{ backend := SaveMode.s3,
             key := toSlashes (buildBaseName w dateF ls.tick).1,
             contents := pngBytes w data, contentType := "image/png" }]
        tick := (buildBaseName w dateF ls.tick).2 } := by
  simp [stepPart, ht, hd, hm, hc, hs, imageSess, pngBytes]

theorem stepPart_img_s3_fail (st : StartupState) (w : GenWorld) (dateF : Bool)
    (ls : LoopState) (p : Part) (data : List Nat)
    (ht : truthy p.text = false) (hd : p.inline_data = some data)
    (hm : st.save_mode = SaveMode.s3) (hc : st.minio_client.isSome = true)
    (hs : w.s3PutOk (toSlashes (buildBaseName w dateF ls.tick).1) = false) :
    stepPart st w dateF ls p = Except.ok
      { found_image := true
        text_output := ls.text_output
        sess := imageSess w dateF ls.tick data
        events := ls.events ++ [Event.s3UploadFailed]
        artifacts := ls.artifacts
        tick := (buildBaseName w dateF ls.tick).2 } := by
  simp [stepPart, ht, hd, hm, hc, hs, imageSess, pngBytes]

theorem stepPart_img_mem (st : StartupState) (w : GenWorld) (dateF : Bool)
    (ls : LoopState) (p : Part) (data : List Nat)
    (ht : truthy p.text = false) (hd : p.inline_data = some data)
    (h1 : st.save_mode ≠ SaveMode.filesystem)
    (h2 : ¬(st.save_mode = SaveMode.s3 ∧ st.minio_client.isSome = true)) :
    stepPart st w dateF ls p = Except.ok
      { found_image := true
        text_output := ls.text_output
        sess := imageSess w dateF ls.tick data
        events := ls.events ++ [Event.memoryOnlyInfo]
        artifacts := ls.artifacts
        tick := (buildBaseName w dateF ls.tick).2 } := by
  simp [stepPart, ht, hd, h1, h2, imageSess, pngBytes]

/-! ### Small case-analysis and rewriting lemmas -/

theorem part_cases (p : Part) :
    truthy p.text = true ∨ (truthy p.text = false ∧ p.inline_data = none) ∨
      ∃ d, truthy p.text = false ∧ p.inline_data = some d := by
  by_cases ht : truthy p.text = true
  · exact Or.inl ht
  · cases hd : p.inline_data with
    | none => exact Or.inr (Or.inl ⟨by simpa using ht, rfl⟩)
    | some d => exact Or.inr (Or.inr ⟨d, by simpa using ht, rfl⟩)

theorem dispatch_cases (st : StartupState) :
    st.save_mode = SaveMode.filesystem ∨
      (st.save_mode = SaveMode.s3 ∧ st.minio_client.isSome = true) ∨
      (st.save_mode ≠ SaveMode.filesystem ∧
        ¬(st.save_mode = SaveMode.s3 ∧ st.minio_client.isSome = true)) := by
  by_cases h1 : st.save_mode = SaveMode.filesystem
  · exact Or.inl h1
  · by_cases h2 : st.save_mode = SaveMode.s3 ∧ st.minio_client.isSome = true
    · exact Or.inr (Or.inl h2)
    · exact Or.inr (Or.inr ⟨h1, h2⟩)

theorem lastTextWins_nil (acc : Option String) : lastTextWins [] acc = acc := rfl

theorem lastTextWins_cons (p : Part) (rest : List Part) (acc : Option String) :
    lastTextWins (p :: rest) acc =
      lastTextWins rest (if truthy p.text then p.text else acc) := rfl

theorem imagePartsData_nil : imagePartsData [] = [] := rfl

theorem imagePartsData_cons_text (p : Part) (rest : List Part)
    (ht : truthy p.text = true) :
    imagePartsData (p :: rest) = imagePartsData rest := by
  simp [imagePartsData, ht]

theorem imagePartsData_cons_skip (p : Part) (rest : List Part)
    (ht : truthy p.text = false) (hd : p.inline_data = none) :
    imagePartsData (p :: rest) = imagePartsData rest := by
  simp [imagePartsData, ht, hd]

theorem imagePartsData_cons_img (p : Part) (rest : List Part) (d : List Nat)
    (ht : truthy p.text = false) (hd : p.inline_data = some d) :
    imagePartsData (p :: rest) = d :: imagePartsData rest := by
  simp [imagePartsData, ht, hd]

/-! ### Loop lemmas -/

theorem runParts_ok_text (st : StartupState) (w : GenWorld) (dateF : Bool)
    (parts : List Part) :
    ∀ (ls fin : LoopState), runParts st w dateF parts ls = Except.ok fin →
      fin.text_output = lastTextWins parts ls.text_output := by
  induction parts with
  | nil =>
    intro ls fin h
    simp only [runParts, Except.ok.injEq] at h
    simp [lastTextWins_nil, ← h]
  | cons p rest ih =>
    intro ls fin h
    simp only [runParts] at h
    rcases part_cases p with ht | ⟨ht, hd⟩ | ⟨d, ht, hd⟩
    · rw [stepPart_text st w dateF ls p ht] at h
      simp only [] at h
      have hrec := ih _ _ h
      simp [hrec, lastTextWins_cons, ht]
    · rw [stepPart_skip st w dateF ls p ht hd] at h
      simp only [] at h
      have hrec := ih _ _ h
      simp [hrec, lastTextWins_cons, ht]
    · rcases dispatch_cases st with hm | ⟨hm, hc⟩ | ⟨h1, h2⟩
      · by_cases hw : w.fsWriteOk (fsFullPath st w dateF ls.tick) = true
        · rw [stepPart_img_fs_ok st w dateF ls p d ht hd hm hw] at h
          simp only [] at h
          have hrec := ih _ _ h
          simp [hrec, lastTextWins_cons, ht]
        · rw [stepPart_img_fs_fail st w dateF ls p d ht hd hm
            (by simpa using hw)] at h
          simp at h
      · by_cases hs : w.s3PutOk (toSlashes (buildBaseName w dateF ls.tick).1) = true
        · rw [stepPart_img_s3_ok st w dateF ls p d ht hd hm hc hs] at h
          simp only [] at h
          have hrec := ih _ _ h
          simp [hrec, lastTextWins_cons, ht]
        · rw [stepPart_img_s3_fail st w dateF ls p d ht hd hm hc
            (by simpa using hs)] at h
          simp only [] at h
          have hrec := ih _ _ h
          simp [hrec, lastTextWins_cons, ht]
      · rw [stepPart_img_mem st w dateF ls p d ht hd h1 h2] at h
        simp only [] at h
        have hrec := ih _ _ h
        simp [hrec, lastTextWins_cons, ht]

theorem dispatchTarget_fs (st : StartupState)
    (hm : st.save_mode = SaveMode.filesystem) :
    dispatchTarget st = SaveMode.filesystem := by
  simp [dispatchTarget, hm]

theorem dispatchTarget_s3 (st : StartupState)
    (hm : st.save_mode = SaveMode.s3) (hc : st.minio_client.isSome = true) :
    dispatchTarget st = SaveMode.s3 := by
  simp [dispatchTarget, hm, hc]

theorem dispatchTarget_mem (st : StartupState)
    (h1 : st.save_mode ≠ SaveMode.filesystem)
    (h2 : ¬(st.save_mode = SaveMode.s3 ∧ st.minio_client.isSome = true)) :
    dispatchTarget st = SaveMode.memory := by
  simp [dispatchTarget, h1, h2]

theorem runParts_events (st : StartupState) (w : GenWorld) (dateF : Bool)
    (parts : List Part) :
    ∀ (ls : LoopState) (e : Event),
      e ∈ (outState (runParts st w dateF parts ls)).events →
      e ∈ ls.events ∨ loopEventOk st e := by
  induction parts with
  | nil => intro ls e he; exact Or.inl (by simpa [runParts, outState] using he)
  | cons p rest ih =>
    intro ls e he
    simp only [runParts] at he
    rcases part_cases p with ht | ⟨ht, hd⟩ | ⟨d, ht, hd⟩
    · rw [stepPart_text st w dateF ls p ht] at he
      simp only [] at he
      have h2 := ih _ e he
      exact h2
    · rw [stepPart_skip st w dateF ls p ht hd] at he
      simp only [] at he
      exact ih _ _ he
    · rcases dispatch_cases st with hm | ⟨hm, hc⟩ | ⟨h1, h2⟩
      · by_cases hw : w.fsWriteOk (fsFullPath st w dateF ls.tick) = true
        · rw [stepPart_img_fs_ok st w dateF ls p d ht hd hm hw] at he
          simp only [] at he
          rcases ih _ _ he with hin | hok
          · simp only [List.mem_append, List.mem_singleton] at hin
            rcases hin with hin | rfl
            · exact Or.inl hin
            · exact Or.inr (by rw [loopEventOk, dispatchTarget_fs st hm]; exact ⟨_, rfl⟩)
          · exact Or.inr hok
        · rw [stepPart_img_fs_fail st w dateF ls p d ht hd hm
            (by simpa using hw)] at he
          simp only [] at he
          exact Or.inl (by simpa [outState] using he)
      · by_cases hs : w.s3PutOk (toSlashes (buildBaseName w dateF ls.tick).1) = true
        · rw [stepPart_img_s3_ok st w dateF ls p d ht hd hm hc hs] at he
          simp only [] at he
          rcases ih _ _ he with hin | hok
          · simp only [List.mem_append, List.mem_singleton] at hin
            rcases hin with hin | rfl
            · exact Or.inl hin
            · exact Or.inr
                (by rw [loopEventOk, dispatchTarget_s3 st hm hc]; exact Or.inl ⟨_, rfl⟩)
          · exact Or.inr hok
        · rw [stepPart_img_s3_fail st w dateF ls p d ht hd hm hc
            (by simpa using hs)] at he
          simp only [] at he
          rcases ih _ _ he with hin | hok
          · simp only [List.mem_append, List.mem_singleton] at hin
            rcases hin with hin | rfl
            · exact Or.inl hin
            · exact Or.inr
                (by rw [loopEventOk, dispatchTarget_s3 st hm hc]; exact Or.inr rfl)
          · exact Or.inr hok
      · rw [stepPart_img_mem st w dateF ls p d ht hd h1 h2] at he
        simp only [] at he
        rcases ih _ _ he with hin | hok
        · simp only [List.mem_append, List.mem_singleton] at hin
          rcases hin with hin | rfl
          · exact Or.inl hin
          · exact Or.inr (by rw [loopEventOk, dispatchTarget_mem st h1 h2])
        · exact Or.inr hok

theorem runParts_no_images (st : StartupState) (w : GenWorld) (dateF : Bool)
    (parts : List Part) (h0 : imagePartsData parts = []) :
    ∀ ls : LoopState,
      runParts st w dateF parts ls =
        Except.ok { ls with text_output := lastTextWins parts ls.text_output } := by
  induction parts with
  | nil => intro ls; simp [runParts, lastTextWins_nil]
  | cons p rest ih =>
    intro ls
    simp only [runParts]
    rcases part_cases p with ht | ⟨ht, hd⟩ | ⟨d, ht, hd⟩
    · rw [stepPart_text st w dateF ls p ht]
      simp only []
      rw [imagePartsData_cons_text p rest ht] at h0
      rw [ih h0]
      simp [lastTextWins_cons, ht]
    · rw [stepPart_skip st w dateF ls p ht hd]
      simp only []
      rw [imagePartsData_cons_skip p rest ht hd] at h0
      rw [ih h0]
      simp [lastTextWins_cons, ht]
    · rw [imagePartsData_cons_img p rest d ht hd] at h0
      exact absurd h0 (List.cons_ne_nil _ _)

theorem lastTextWins_okAcc (parts : List Part) :
    ∀ acc : Option String, okAcc acc → okAcc (lastTextWins parts acc) := by
  induction parts with
  | nil => intro acc h; exact h
  | cons p rest ih =>
    intro acc h
    rw [lastTextWins_cons]
    by_cases ht : truthy p.text = true
    · exact ih _ (by simp [okAcc, ht])
    · simp only [ht] at *
      exact ih _ (by simpa [if_neg] using h)

theorem runParts_cons_ok (st : StartupState) (w : GenWorld) (dateF : Bool)
    {ls ls' : LoopState} {p : Part} (rest : List Part)
    (h : stepPart st w dateF ls p = Except.ok ls') :
    runParts st w dateF (p :: rest) ls = runParts st w dateF rest ls' := by
  simp only [runParts, h]

theorem runParts_cons_error (st : StartupState) (w : GenWorld) (dateF : Bool)
    {ls ls' : LoopState} {p : Part} (rest : List Part)
    (h : stepPart st w dateF ls p = Except.error ls') :
    runParts st w dateF (p :: rest) ls = Except.error ls' := by
  simp only [runParts, h]

theorem runParts_writesOk (st : StartupState) (w : GenWorld) (dateF : Bool)
    (hok : writesOk st w) (parts : List Part) :
    ∀ ls : LoopState, ∃ fin : LoopState,
      runParts st w dateF parts ls = Except.ok fin ∧
      fin.artifacts.map (fun a => a.contents) =
        ls.artifacts.map (fun a => a.contents) ++
          (imagePartsData parts).map (pngBytes w) := by
  induction parts with
  | nil =>
    intro ls
    exact ⟨ls, by simp [runParts], by simp [imagePartsData_nil]⟩
  | cons p rest ih =>
    intro ls
    rcases part_cases p with ht | ⟨ht, hd⟩ | ⟨d, ht, hd⟩
    · obtain ⟨fin, hrun, harts⟩ := ih { ls with text_output := p.text }
      refine ⟨fin, ?_, ?_⟩
      · rw [runParts_cons_ok st w dateF rest (stepPart_text st w dateF ls p ht)]
        exact hrun
      · rw [harts]
        simp [imagePartsData_cons_text p rest ht]
    · obtain ⟨fin, hrun, harts⟩ := ih ls
      refine ⟨fin, ?_, ?_⟩
      · rw [runParts_cons_ok st w dateF rest (stepPart_skip st w dateF ls p ht hd)]
        exact hrun
      · rw [harts]
        simp [imagePartsData_cons_skip p rest ht hd]
    · rcases hok with ⟨hm, hw⟩ | ⟨hm, hc, hs⟩
      · obtain ⟨fin, hrun, harts⟩ := ih
          { found_image := true
            text_output := ls.text_output
            sess := imageSess w dateF ls.tick d
            events := ls.events ++ [Event.savedFilesystem (fsFullPath st w dateF ls.tick)]
            artifacts := ls.artifacts ++
              [{ backend := SaveMode.filesystem, key := fsFullPath st w dateF ls.tick,
                 contents := pngBytes w d, contentType := "image/png" }]
            tick := (buildBaseName w dateF ls.tick).2 }
        refine ⟨fin, ?_, ?_⟩
        · rw [runParts_cons_ok st w dateF rest
            (stepPart_img_fs_ok st w dateF ls p d ht hd hm (hw _))]
          exact hrun
        · rw [harts]
          simp [imagePartsData_cons_img p rest d ht hd]
      · obtain ⟨fin, hrun, harts⟩ := ih
          { found_image := true
            text_output := ls.text_output
            sess := imageSess w dateF ls.tick d
            events := ls.events ++
              [Event.savedS3 (toSlashes (buildBaseName w dateF ls.tick).1)]
            artifacts := ls.artifacts ++
              [{ backend := SaveMode.s3,
                 key := toSlashes (buildBaseName w dateF ls.tick).1,
                 contents := pngBytes w d, contentType := "image/png" }]
            tick := (buildBaseName w dateF ls.tick).2 }
        refine ⟨fin, ?_, ?_⟩
        · rw [runParts_cons_ok st w dateF rest
            (stepPart_img_s3_ok st w dateF ls p d ht hd hm hc (hs _))]
          exact hrun
        · rw [harts]
          simp [imagePartsData_cons_img p rest d ht hd]

theorem runParts_fs_fail (st : StartupState) (w : GenWorld) (dateF : Bool)
    (hm : st.save_mode = SaveMode.filesystem)
    (hfail : ∀ q, w.fsWriteOk q = false) (parts : List Part)
    (h0 : imagePartsData parts ≠ []) :
    ∀ ls : LoopState, ∃ fin : LoopState,
      runParts st w dateF parts ls = Except.error fin ∧
      fin.events = ls.events ∧ fin.artifacts = ls.artifacts ∧
      fin.sess.generated_image_bytes.isSome = true ∧
      fin.sess.generated_image.isSome = true := by
  induction parts with
  | nil => exact absurd imagePartsData_nil h0
  | cons p rest ih =>
    intro ls
    rcases part_cases p with ht | ⟨ht, hd⟩ | ⟨d, ht, hd⟩
    · rw [imagePartsData_cons_text p rest ht] at h0
      obtain ⟨fin, hrun, he, ha, hb, hi⟩ := ih h0 { ls with text_output := p.text }
      refine ⟨fin, ?_, he, ha, hb, hi⟩
      rw [runParts_cons_ok st w dateF rest (stepPart_text st w dateF ls p ht)]
      exact hrun
    · rw [imagePartsData_cons_skip p rest ht hd] at h0
      obtain ⟨fin, hrun, he, ha, hb, hi⟩ := ih h0 ls
      refine ⟨fin, ?_, he, ha, hb, hi⟩
      rw [runParts_cons_ok st w dateF rest (stepPart_skip st w dateF ls p ht hd)]
      exact hrun
    · refine ⟨{ ls with sess := imageSess w dateF ls.tick d,
                        tick := (buildBaseName w dateF ls.tick).2 }, ?_, rfl, rfl, rfl, rfl⟩
      rw [runParts_cons_error st w dateF rest
        (stepPart_img_fs_fail st w dateF ls p d ht hd hm (hfail _))]

theorem runParts_s3_fail (st : StartupState) (w : GenWorld) (dateF : Bool)
    (hm : st.save_mode = SaveMode.s3) (hc : st.minio_client.isSome = true)
    (hfail : ∀ k, w.s3PutOk k = false) (parts : List Part) :
    ∀ ls : LoopState, ∃ fin : LoopState,
      runParts st w dateF parts ls = Except.ok fin ∧
      fin.artifacts = ls.artifacts ∧
      fin.events = ls.events ++
        List.replicate (imagePartsData parts).length Event.s3UploadFailed ∧
      (ls.sess.generated_image_bytes.isSome = true →
        fin.sess.generated_image_bytes.isSome = true) ∧
      (imagePartsData parts ≠ [] →
        fin.sess.generated_image_bytes.isSome = true) := by
  induction parts with
  | nil =>
    intro ls
    refine ⟨ls, by simp [runParts], rfl, by simp [imagePartsData_nil], fun h => h, ?_⟩
    intro h
    exact absurd imagePartsData_nil h
  | cons p rest ih =>
    intro ls
    rcases part_cases p with ht | ⟨ht, hd⟩ | ⟨d, ht, hd⟩
    · obtain ⟨fin, hrun, ha, he, hp, hn⟩ := ih { ls with text_output := p.text }
      refine ⟨fin, ?_, ha, ?_, hp, ?_⟩
      · rw [runParts_cons_ok st w dateF rest (stepPart_text st w dateF ls p ht)]
        exact hrun
      · rw [he]; simp [imagePartsData_cons_text p rest ht]
      · intro h0
        rw [imagePartsData_cons_text p rest ht] at h0
        exact hn h0
    · obtain ⟨fin, hrun, ha, he, hp, hn⟩ := ih ls
      refine ⟨fin, ?_, ha, ?_, hp, ?_⟩
      · rw [runParts_cons_ok st w dateF rest (stepPart_skip st w dateF ls p ht hd)]
        exact hrun
      · rw [he]; simp [imagePartsData_cons_skip p rest ht hd]
      · intro h0
        rw [imagePartsData_cons_skip p rest ht hd] at h0
        exact hn h0
    · obtain ⟨fin, hrun, ha, he, hp, hn⟩ := ih
        { found_image := true
          text_output := ls.text_output
          sess := imageSess w dateF ls.tick d
          events := ls.events ++ [Event.s3UploadFailed]
          artifacts := ls.artifacts
          tick := (buildBaseName w dateF ls.tick).2 }
      have hsome : (imageSess w dateF ls.tick d).generated_image_bytes.isSome = true := rfl
      refine ⟨fin, ?_, ha, ?_, fun _ => hp hsome, fun _ => hp hsome⟩
      · rw [runParts_cons_ok st w dateF rest
          (stepPart_img_s3_fail st w dateF ls p d ht hd hm hc (hfail _))]
        exact hrun
      · rw [he]
        simp [imagePartsData_cons_img p rest d ht hd, List.replicate_succ,
          List.append_assoc]

/-! ### String lemmas for filename derivation -/

theorem digitChar_ne_backslash : ∀ n : Nat, Nat.digitChar n ≠ '\\'
  | 0 => by decide
  | 1 => by decide
  | 2 => by decide
  | 3 => by decide
  | 4 => by decide
  | 5 => by decide
  | 6 => by decide
  | 7 => by decide
  | 8 => by decide
  | 9 => by decide
  | 10 => by decide
  | 11 => by decide
  | 12 => by decide
  | 13 => by decide
  | 14 => by decide
  | 15 => by decide
  | (n + 16) => by
    unfold Nat.digitChar
    repeat rw [if_neg (by omega)]
    decide

theorem pad2_data (n : Nat) :
    (pad2 n).data = [Nat.digitChar (n / 10 % 10), Nat.digitChar (n % 10)] := rfl

theorem pad4_data (n : Nat) :
    (pad4 n).data = [Nat.digitChar (n / 1000 % 10), Nat.digitChar (n / 100 % 10),
      Nat.digitChar (n / 10 % 10), Nat.digitChar (n % 10)] := rfl

theorem backslashFree_pad2 (n : Nat) : backslashFree (pad2 n) := by
  intro h
  simp only [pad2_data, List.mem_cons, List.not_mem_nil, or_false] at h
  rcases h with h | h <;> exact digitChar_ne_backslash _ h.symm

theorem backslashFree_pad4 (n : Nat) : backslashFree (pad4 n) := by
  intro h
  simp only [pad4_data, List.mem_cons, List.not_mem_nil, or_false] at h
  rcases h with h | h | h | h <;> exact digitChar_ne_backslash _ h.symm

theorem backslashFree_append (a b : String)
    (ha : backslashFree a) (hb : backslashFree b) : backslashFree (a ++ b) := by
  intro h
  rw [String.data_append] at h
  rcases List.mem_append.1 h with h | h
  · exact ha h
  · exact hb h

theorem backslashFree_strftimeCompact (t : DateTime) :
    backslashFree (strftimeCompact t) := by
  unfold strftimeCompact
  repeat' apply backslashFree_append
  all_goals first
    | exact backslashFree_pad4 _
    | exact backslashFree_pad2 _
    | exact (show backslashFree "_" by unfold backslashFree; decide)

theorem backslashFree_strftimeDate (t : DateTime) :
    backslashFree (strftimeDate t) := by
  unfold strftimeDate
  repeat' apply backslashFree_append
  all_goals first
    | exact backslashFree_pad4 _
    | exact backslashFree_pad2 _
    | exact (show backslashFree "-" by unfold backslashFree; decide)

theorem toSlashes_append (a b : String) :
    toSlashes (a ++ b) = toSlashes a ++ toSlashes b := by
  apply String.ext
  show ((a ++ b).data.map _) = (toSlashes a ++ toSlashes b).data
  rw [String.data_append, String.data_append, List.map_append]
  rfl

theorem toSlashes_of_backslashFree (s : String) (h : backslashFree s) :
    toSlashes s = s := by
  apply String.ext
  show s.data.map _ = s.data
  conv_rhs => rw [← List.map_id s.data]
  apply List.map_congr_left
  intro c hc
  have hne : c ≠ '\\' := fun he => h (he ▸ hc)
  simp [hne]

theorem backslashFree_fname (t : DateTime) :
    backslashFree ("gemini_image_" ++ strftimeCompact t ++ ".png") := by
  apply backslashFree_append
  · apply backslashFree_append
    · unfold backslashFree; decide
    · exact backslashFree_strftimeCompact t
  · unfold backslashFree; decide

/-! ### Handler unfolding lemmas -/

theorem handleGenerate_promptEmpty (st : StartupState) (w : GenWorld)
    (mc : ModelChoice) (ratio : String) (dateF : Bool) (prompt : String)
    (uploads : Uploads) (sess0 : SessionState)
    (hp : (pyStrip prompt).isEmpty = true) :
    handleGenerate st w mc ratio dateF prompt uploads sess0 =
      { upstreamCall := none, events := [Event.warnEmptyPrompt],
        sess := sess0, artifacts := [], halted := false } := by
  simp [handleGenerate, hp]

theorem handleGenerate_noImg1 (st : StartupState) (w : GenWorld)
    (mc : ModelChoice) (ratio : String) (dateF : Bool) (prompt : String)
    (uploads : Uploads) (sess0 : SessionState)
    (hp : (pyStrip prompt).isEmpty = false) (hi : uploads.img1.isNone = true) :
    handleGenerate st w mc ratio dateF prompt uploads sess0 =
      { upstreamCall := none, events := [Event.warnMissingImage1],
        sess := sess0, artifacts := [], halted := false } := by
  simp [handleGenerate, hp, hi]

theorem handleGenerate_upstreamError (st : StartupState) (w : GenWorld)
    (mc : ModelChoice) (ratio : String) (dateF : Bool) (prompt : String)
    (uploads : Uploads) (sess0 : SessionState) (msg : String)
    (hp : (pyStrip prompt).isEmpty = false) (hi : uploads.img1.isNone = false)
    (hup : w.upstream = Except.error msg) :
    handleGenerate st w mc ratio dateF prompt uploads sess0 =
      { upstreamCall := some (builtRequest mc ratio prompt uploads),
        events := [Event.unexpectedError],
        sess := sess0, artifacts := [], halted := false } := by
  simp [handleGenerate, hp, hi, hup]

theorem handleGenerate_loopError (st : StartupState) (w : GenWorld)
    (mc : ModelChoice) (ratio : String) (dateF : Bool) (prompt : String)
    (uploads : Uploads) (sess0 : SessionState) (parts : List Part)
    (fin : LoopState)
    (hp : (pyStrip prompt).isEmpty = false) (hi : uploads.img1.isNone = false)
    (hup : w.upstream = Except.ok parts)
    (hrun : runParts st w dateF parts (initLoop sess0) = Except.error fin) :
    handleGenerate st w mc ratio dateF prompt uploads sess0 =
      { upstreamCall := some (builtRequest mc ratio prompt uploads),
        events := fin.events ++ [Event.unexpectedError],
        sess := fin.sess, artifacts := fin.artifacts, halted := false } := by
  simp [handleGenerate, hp, hi, hup, hrun]

theorem handleGenerate_loopOk (st : StartupState) (w : GenWorld)
    (mc : ModelChoice) (ratio : String) (dateF : Bool) (prompt : String)
    (uploads : Uploads) (sess0 : SessionState) (parts : List Part)
    (fin : LoopState)
    (hp : (pyStrip prompt).isEmpty = false) (hi : uploads.img1.isNone = false)
    (hup : w.upstream = Except.ok parts)
    (hrun : runParts st w dateF parts (initLoop sess0) = Except.ok fin) :
    handleGenerate st w mc ratio dateF prompt uploads sess0 =
      { upstreamCall := some (builtRequest mc ratio prompt uploads),
        events := summaryEvents uploads fin,
        sess := fin.sess, artifacts := fin.artifacts, halted := false } := by
  simp [handleGenerate, hp, hi, hup, hrun]

theorem toSlashes_slash : toSlashes "/" = "/" := by decide

theorem toSlashes_backslash : toSlashes "\\" = "/" := by decide

theorem loopEventOk_textPayload (st : StartupState) (e : Event)
    (h : loopEventOk st e) : Event.textPayload e = none := by
  unfold loopEventOk at h
  cases hdt : dispatchTarget st <;> rw [hdt] at h <;> simp only [] at h
  · obtain ⟨p, rfl⟩ := h
    rfl
  · rcases h with ⟨k, rfl⟩ | rfl <;> rfl
  · rw [h]
    rfl

theorem loopEventOk_s3_ne_memoryInfo (st : StartupState)
    (hm : st.save_mode = SaveMode.s3) (hc : st.minio_client.isSome = true) :
    ¬loopEventOk st Event.memoryOnlyInfo := by
  intro h
  unfold loopEventOk at h
  rw [dispatchTarget_s3 st hm hc] at h
  simp only [] at h
  rcases h with ⟨k, hk⟩ | hk <;> simp at hk

theorem summaryEvents_mem (uploads : Uploads) (fin : LoopState) (e : Event)
    (he : e ∈ summaryEvents uploads fin) :
    e ∈ fin.events ∨ (∃ n, e = Event.generationSuccess n) ∨
      e = Event.noImageError ∨ ∃ t, e = Event.responseText t := by
  unfold summaryEvents at he
  simp only [List.mem_append] at he
  rcases he with (he | he) | he
  · exact Or.inl he
  · split at he
    · simp only [List.mem_singleton] at he
      exact Or.inr (Or.inl ⟨_, he⟩)
    · simp only [List.mem_singleton] at he
      exact Or.inr (Or.inr (Or.inl he))
  · split at he
    · split at he
      · simp at he
      · simp only [List.mem_singleton] at he
        exact Or.inr (Or.inr (Or.inr ⟨_, he⟩))
    · simp at he

theorem runParts_events_of_ok (st : StartupState) (w : GenWorld) (dateF : Bool)
    (parts : List Part) (ls fin : LoopState)
    (hrun : runParts st w dateF parts ls = Except.ok fin)
    (e : Event) (he : e ∈ fin.events) : e ∈ ls.events ∨ loopEventOk st e := by
  have h := runParts_events st w dateF parts ls e
  rw [hrun] at h
  exact h (by simpa [outState] using he)

theorem runParts_events_of_error (st : StartupState) (w : GenWorld) (dateF : Bool)
    (parts : List Part) (ls fin : LoopState)
    (hrun : runParts st w dateF parts ls = Except.error fin)
    (e : Event) (he : e ∈ fin.events) : e ∈ ls.events ∨ loopEventOk st e := by
  have h := runParts_events st w dateF parts ls e
  rw [hrun] at h
  exact h (by simpa [outState] using he)

theorem summaryEvents_of_no_image (uploads : Uploads) (sess0 : SessionState)
    (topt : Option String) :
    summaryEvents uploads
      { found_image := false, text_output := topt, sess := sess0,
        events := [], artifacts := [], tick := 0 } =
      [Event.noImageError] ++
        (match topt with
        | some t => if t.isEmpty then [] else [Event.responseText t]
        | none => []) := by
  unfold summaryEvents
  simp

/-! ### Claim theorems -/

/-- C1: backend selection is a deterministic function of configuration with
fixed priority: Filesystem when a configured directory exists, else
ObjectStore when all four object-store parameters are present and the client
construction plus bucket verification succeeds, else Ephemeral; Filesystem
wins over ObjectStore whenever both are validly configured. -/
theorem save_mode_priority_selection (env : Env) (w : StartupWorld) :
    ((startup env w).save_mode =
      (if filesystem_configured env w then SaveMode.filesystem
      else if s3_configured0 env && w.minioInitOk then SaveMode.s3
      else SaveMode.memory)) ∧
    (filesystem_configured env w = true →
      (startup env w).save_mode = SaveMode.filesystem) ∧
    (filesystem_configured env w = false →
      (s3_configured0 env && w.minioInitOk) = true →
      (startup env w).save_mode = SaveMode.s3) ∧
    (filesystem_configured env w = false →
      (s3_configured0 env && w.minioInitOk) = false →
      (startup env w).save_mode = SaveMode.memory) := by
  refine ⟨startup_save_mode env w, ?_, ?_, ?_⟩
  · intro h1
    rw [startup_save_mode]
    simp [h1]
  · intro h1 h2
    rw [startup_save_mode]
    simp [h1, h2]
  · intro h1 h2
    rw [startup_save_mode]
    simp [h1, h2]

/-- C1 witness: with both a valid directory and full object-store
configuration, Filesystem is selected. -/
theorem save_mode_priority_selection_witness :
    filesystem_configured envBoth wAllOk = true ∧
    (s3_configured0 envBoth && wAllOk.minioInitOk) = true ∧
    (startup envBoth wAllOk).save_mode = SaveMode.filesystem :=
  ⟨by decide, by decide,
    (save_mode_priority_selection envBoth wAllOk).2.1 (by decide)⟩

/-- C6: an object-store initialization failure makes the selection fall back
to Ephemeral (memory), never to Filesystem, whenever no valid filesystem
directory is configured. -/
theorem s3_init_failure_falls_back_to_memory (env : Env) (w : StartupWorld)
    (hfs : filesystem_configured env w = false)
    (hfail : w.minioInitOk = false) :
    (startup env w).save_mode = SaveMode.memory ∧
    (startup env w).save_mode ≠ SaveMode.filesystem := by
  have h : (startup env w).save_mode = SaveMode.memory := by
    rw [startup_save_mode]
    simp [hfs, hfail]
  exact ⟨h, by rw [h]; simp⟩

/-- C6 witness: full object-store configuration, no filesystem path, failed
MinIO initialization. -/
theorem s3_init_failure_falls_back_to_memory_witness :
    filesystem_configured envS3 wInitFail = false ∧
    wInitFail.minioInitOk = false ∧
    (startup envS3 wInitFail).save_mode = SaveMode.memory :=
  ⟨by decide, by decide,
    (s3_init_failure_falls_back_to_memory envS3 wInitFail (by decide)
      (by decide)).1⟩

/-- C9: the TLS flag is true exactly when `S3_SECURE` is unset or its value
lowercases to "true"; any other value (such as "1", "yes", or "TRUE " with
trailing whitespace) yields a non-TLS connection, while the unset default
is true. -/
theorem s3_secure_flag_iff :
    (∀ v : Option String, S3_SECURE_flag v = true ↔
      (v = none ∨ ∃ s, v = some s ∧ pyLower s = "true")) ∧
    S3_SECURE_flag none = true ∧ S3_SECURE_flag (some "TRUE") = true ∧
    S3_SECURE_flag (some "1") = false ∧ S3_SECURE_flag (some "yes") = false ∧
    S3_SECURE_flag (some "TRUE ") = false := by
  refine ⟨?_, by decide, by decide, by decide, by decide, by decide⟩
  intro v
  cases v with
  | none => simpa [S3_SECURE_flag] using (by decide : pyLower "true" = "true")
  | some s => simp [S3_SECURE_flag]

/-- C3: a prompt that is empty after trimming, or a missing slot-1 image,
rejects the generate action with a validation notice and no upstream call;
with both present the upstream request is issued. -/
theorem validation_gates_upstream_call (st : StartupState) (w : GenWorld)
    (mc : ModelChoice) (ratio : String) (dateF : Bool) (prompt : String)
    (uploads : Uploads) (sess0 : SessionState) :
    ((pyStrip prompt).isEmpty = true →
      (handleGenerate st w mc ratio dateF prompt uploads sess0).upstreamCall = none ∧
      (handleGenerate st w mc ratio dateF prompt uploads sess0).events =
        [Event.warnEmptyPrompt]) ∧
    ((pyStrip prompt).isEmpty = false → uploads.img1.isNone = true →
      (handleGenerate st w mc ratio dateF prompt uploads sess0).upstreamCall = none ∧
      (handleGenerate st w mc ratio dateF prompt uploads sess0).events =
        [Event.warnMissingImage1]) ∧
    ((pyStrip prompt).isEmpty = false → uploads.img1.isNone = false →
      (handleGenerate st w mc ratio dateF prompt uploads sess0).upstreamCall =
        some (builtRequest mc ratio prompt uploads)) := by
  refine ⟨?_, ?_, ?_⟩
  · intro hp
    rw [handleGenerate_promptEmpty st w mc ratio dateF prompt uploads sess0 hp]
    exact ⟨rfl, rfl⟩
  · intro hp hi
    rw [handleGenerate_noImg1 st w mc ratio dateF prompt uploads sess0 hp hi]
    exact ⟨rfl, rfl⟩
  · intro hp hi
    cases hup : w.upstream with
    | error msg =>
      rw [handleGenerate_upstreamError st w mc ratio dateF prompt uploads sess0
        msg hp hi hup]
    | ok parts =>
      cases hrun : runParts st w dateF parts (initLoop sess0) with
      | error fin =>
        rw [handleGenerate_loopError st w mc ratio dateF prompt uploads sess0
          parts fin hp hi hup hrun]
      | ok fin =>
        rw [handleGenerate_loopOk st w mc ratio dateF prompt uploads sess0
          parts fin hp hi hup hrun]

/-- C3 witness: an all-whitespace prompt is rejected with no upstream call;
a real prompt with the slot-1 image issues the call. -/
theorem validation_gates_upstream_call_witness :
    (pyStrip "  ").isEmpty = true ∧
    (pyStrip "hi").isEmpty = false ∧ uploadsOne.img1.isNone = false ∧
    (handleGenerate stFS genWOk ModelChoice.flashImagePreview "1:1" false
      "  " uploadsOne sessEmpty).upstreamCall = none ∧
    (handleGenerate stFS genWOk ModelChoice.flashImagePreview "1:1" false
      "hi" uploadsOne sessEmpty).upstreamCall =
      some (builtRequest ModelChoice.flashImagePreview "1:1" "hi" uploadsOne) :=
  ⟨by decide, by decide, by decide,
    ((validation_gates_upstream_call stFS genWOk ModelChoice.flashImagePreview
      "1:1" false "  " uploadsOne sessEmpty).1 (by decide)).1,
    (validation_gates_upstream_call stFS genWOk ModelChoice.flashImagePreview
      "1:1" false "hi" uploadsOne sessEmpty).2.2 (by decide) (by decide)⟩

/-- C10: whenever the selected mode is the object store, the client handle
is non-null and initialization (including bucket verification/creation)
succeeded, so the dispatch never falls through to the memory-only branch. -/
theorem s3_mode_client_invariant (env : Env) (w0 : StartupWorld)
    (hmode : (startup env w0).save_mode = SaveMode.s3) :
    (startup env w0).minio_client.isSome = true ∧ w0.minioInitOk = true ∧
    ∀ (w : GenWorld) (mc : ModelChoice) (ratio : String) (dateF : Bool)
      (prompt : String) (uploads : Uploads) (sess0 : SessionState),
      Event.memoryOnlyInfo ∉
        (handleGenerate (startup env w0) w mc ratio dateF prompt uploads
          sess0).events := by
  have hboth : (s3_configured0 env && w0.minioInitOk) = true := by
    rw [startup_save_mode] at hmode
    by_cases hfs : filesystem_configured env w0 = true
    · simp [hfs] at hmode
    · by_cases hs3 : (s3_configured0 env && w0.minioInitOk) = true
      · exact hs3
      · simp [eq_false_of_ne_true hfs, eq_false_of_ne_true hs3] at hmode
  have hc : (startup env w0).minio_client.isSome = true := by
    rw [startup_minio_client_isSome]
    exact hboth
  have hinit : w0.minioInitOk = true := by
    rw [Bool.and_eq_true] at hboth
    exact hboth.2
  refine ⟨hc, hinit, ?_⟩
  intro w mc ratio dateF prompt uploads sess0
  by_cases hp : (pyStrip prompt).isEmpty = true
  · rw [handleGenerate_promptEmpty (startup env w0) w mc ratio dateF prompt
      uploads sess0 hp]
    simp
  · have hp' : (pyStrip prompt).isEmpty = false := eq_false_of_ne_true hp
    by_cases hi : uploads.img1.isNone = true
    · rw [handleGenerate_noImg1 (startup env w0) w mc ratio dateF prompt
        uploads sess0 hp' hi]
      simp
    · have hi' : uploads.img1.isNone = false := eq_false_of_ne_true hi
      cases hup : w.upstream with
      | error msg =>
        rw [handleGenerate_upstreamError (startup env w0) w mc ratio dateF
          prompt uploads sess0 msg hp' hi' hup]
        simp
      | ok parts =>
        cases hrun : runParts (startup env w0) w dateF parts (initLoop sess0) with
        | error fin =>
          rw [handleGenerate_loopError (startup env w0) w mc ratio dateF prompt
            uploads sess0 parts fin hp' hi' hup hrun]
          intro hmem
          simp only [GenOutcome.mk.injEq, List.mem_append,
            List.mem_singleton] at hmem
          rcases hmem with hmem | hmem
          · rcases runParts_events_of_error (startup env w0) w dateF parts
              (initLoop sess0) fin hrun Event.memoryOnlyInfo hmem with h | h
            · simp [initLoop] at h
            · exact loopEventOk_s3_ne_memoryInfo (startup env w0) hmode hc h
          · simp at hmem
        | ok fin =>
          rw [handleGenerate_loopOk (startup env w0) w mc ratio dateF prompt
            uploads sess0 parts fin hp' hi' hup hrun]
          intro hmem
          rcases summaryEvents_mem uploads fin Event.memoryOnlyInfo hmem with
            hmem | ⟨n, hn⟩ | hn | ⟨t, hn⟩
          · rcases runParts_events_of_ok (startup env w0) w dateF parts
              (initLoop sess0) fin hrun Event.memoryOnlyInfo hmem with h | h
            · simp [initLoop] at h
            · exact loopEventOk_s3_ne_memoryInfo (startup env w0) hmode hc h
          · simp at hn
          · simp at hn
          · simp at hn

/-- C10 witness: a configuration whose startup selects the object store has
a live client, and the memory-only notice is never shown. -/
theorem s3_mode_client_invariant_witness :
    (startup envS3 wAllOk).save_mode = SaveMode.s3 ∧
    (startup envS3 wAllOk).minio_client.isSome = true ∧
    Event.memoryOnlyInfo ∉
      (handleGenerate (startup envS3 wAllOk) genWOk
        ModelChoice.flashImagePreview "1:1" false "hi" uploadsOne
        sessEmpty).events :=
  ⟨by decide, (s3_mode_client_invariant envS3 wAllOk (by decide)).1,
    (s3_mode_client_invariant envS3 wAllOk (by decide)).2.2 genWOk
      ModelChoice.flashImagePreview "1:1" false "hi" uploadsOne sessEmpty⟩

theorem string_empty_append (s : String) : "" ++ s = s := by
  apply String.ext
  rw [String.data_append]
  rfl

/-- C4: a successful upstream response containing zero image parts yields
the recoverable no-image notice: no success notice, no artifact, session
unchanged, and the script is not halted. -/
theorem no_image_parts_recoverable (st : StartupState) (w : GenWorld)
    (mc : ModelChoice) (ratio : String) (dateF : Bool) (prompt : String)
    (uploads : Uploads) (sess0 : SessionState) (parts : List Part)
    (hp : (pyStrip prompt).isEmpty = false) (hi : uploads.img1.isNone = false)
    (hup : w.upstream = Except.ok parts)
    (hzero : imagePartsData parts = []) :
    Event.noImageError ∈
      (handleGenerate st w mc ratio dateF prompt uploads sess0).events ∧
    (∀ n, Event.generationSuccess n ∉
      (handleGenerate st w mc ratio dateF prompt uploads sess0).events) ∧
    (handleGenerate st w mc ratio dateF prompt uploads sess0).artifacts = [] ∧
    (handleGenerate st w mc ratio dateF prompt uploads sess0).sess = sess0 ∧
    (handleGenerate st w mc ratio dateF prompt uploads sess0).halted = false := by
  have hrun : runParts st w dateF parts (initLoop sess0) = Except.ok
      { found_image := false, text_output := lastTextWins parts none,
        sess := sess0, events := [], artifacts := [], tick := 0 } :=
    runParts_no_images st w dateF parts hzero (initLoop sess0)
  rw [handleGenerate_loopOk st w mc ratio dateF prompt uploads sess0 parts _
    hp hi hup hrun]
  refine ⟨?_, ?_, rfl, rfl, rfl⟩
  · show Event.noImageError ∈ summaryEvents uploads
      { found_image := false, text_output := lastTextWins parts none,
        sess := sess0, events := [], artifacts := [], tick := 0 }
    rw [summaryEvents_of_no_image]
    simp
  · intro n hmem
    simp only [summaryEvents_of_no_image] at hmem
    cases hval : lastTextWins parts none with
    | none => rw [hval] at hmem; simp at hmem
    | some t =>
      rw [hval] at hmem
      by_cases hte : t.isEmpty = true
      · simp [hte] at hmem
      · simp [eq_false_of_ne_true hte] at hmem

/-- C2: in one handler run with a writable selected backend, the last truthy
text part is the only reported commentary, and every image part is decoded,
re-encoded, and written: the artifacts are exactly the image parts in order. -/
theorem last_text_wins_every_image_persisted (st : StartupState) (w : GenWorld)
    (mc : ModelChoice) (ratio : String) (dateF : Bool) (prompt : String)
    (uploads : Uploads) (sess0 : SessionState) (parts : List Part)
    (hok : writesOk st w)
    (hp : (pyStrip prompt).isEmpty = false) (hi : uploads.img1.isNone = false)
    (hup : w.upstream = Except.ok parts) :
    (handleGenerate st w mc ratio dateF prompt uploads sess0).artifacts.map
        (fun a => a.contents) = (imagePartsData parts).map (pngBytes w) ∧
    (handleGenerate st w mc ratio dateF prompt uploads sess0).artifacts.length =
      (imagePartsData parts).length ∧
    reportedCommentary (handleGenerate st w mc ratio dateF prompt uploads sess0) =
      (lastTextWins parts none).toList := by
  obtain ⟨fin, hrun, harts⟩ := runParts_writesOk st w dateF hok parts (initLoop sess0)
  have htext : fin.text_output = lastTextWins parts none := by
    simpa [initLoop] using runParts_ok_text st w dateF parts (initLoop sess0) fin hrun
  rw [handleGenerate_loopOk st w mc ratio dateF prompt uploads sess0 parts fin
    hp hi hup hrun]
  have harts' : fin.artifacts.map (fun a => a.contents) =
      (imagePartsData parts).map (pngBytes w) := by
    simpa [initLoop] using harts
  have hlen : fin.artifacts.length = (imagePartsData parts).length := by
    have hl := congrArg List.length harts'
    simpa using hl
  refine ⟨harts', hlen, ?_⟩
  have hnotext : ∀ e ∈ fin.events, Event.textPayload e = none := by
    intro e he
    rcases runParts_events_of_ok st w dateF parts (initLoop sess0) fin hrun e he
      with h | h
    · simp [initLoop] at h
    · exact loopEventOk_textPayload st e h
  show (summaryEvents uploads fin).filterMap Event.textPayload =
    (lastTextWins parts none).toList
  unfold summaryEvents
  rw [List.filterMap_append, List.filterMap_append]
  rw [List.filterMap_eq_nil_iff.mpr hnotext]
  have hmid : (if fin.found_image then
      [Event.generationSuccess (slotImages uploads).length]
      else [Event.noImageError]).filterMap Event.textPayload = [] := by
    split <;> rfl
  rw [hmid, htext]
  rcases lastTextWins_okAcc parts none (Or.inl rfl) with hnone | htruthy
  · rw [hnone]
    rfl
  · cases hval : lastTextWins parts none with
    | none => rfl
    | some t =>
      rw [hval] at htruthy
      have hte : t.isEmpty = false := by simpa [truthy] using htruthy
      simp [hte, Event.textPayload]

/-- C2 witness: a four-part response (text, image, text, image) against the
filesystem backend with succeeding writes persists both images and reports
the second text. -/
theorem last_text_wins_every_image_persisted_witness :
    writesOk stFS genWOk ∧ (pyStrip "hi").isEmpty = false ∧
    uploadsOne.img1.isNone = false ∧ genWOk.upstream = Except.ok partsEg ∧
    ((handleGenerate stFS genWOk ModelChoice.flashImagePreview "1:1" false
        "hi" uploadsOne sessEmpty).artifacts.map (fun a => a.contents) =
      (imagePartsData partsEg).map (pngBytes genWOk) ∧
    (handleGenerate stFS genWOk ModelChoice.flashImagePreview "1:1" false
        "hi" uploadsOne sessEmpty).artifacts.length =
      (imagePartsData partsEg).length ∧
    reportedCommentary (handleGenerate stFS genWOk ModelChoice.flashImagePreview
        "1:1" false "hi" uploadsOne sessEmpty) =
      (lastTextWins partsEg none).toList) :=
  ⟨Or.inl ⟨rfl, fun _ => rfl⟩, by decide, by decide, rfl,
    last_text_wins_every_image_persisted stFS genWOk
      ModelChoice.flashImagePreview "1:1" false "hi" uploadsOne sessEmpty
      partsEg (Or.inl ⟨rfl, fun _ => rfl⟩) (by decide) (by decide) rfl⟩

/-- C5: once dispatch has begun, a write failure of the selected backend is
surfaced and no other backend is attempted, while the encoded bytes stay in
session memory for download. -/
theorem write_failure_no_fallback (st : StartupState) (w : GenWorld)
    (mc : ModelChoice) (ratio : String) (dateF : Bool) (prompt : String)
    (uploads : Uploads) (sess0 : SessionState) (parts : List Part)
    (hp : (pyStrip prompt).isEmpty = false) (hi : uploads.img1.isNone = false)
    (hup : w.upstream = Except.ok parts)
    (h0 : imagePartsData parts ≠ []) :
    (st.save_mode = SaveMode.filesystem → (∀ q, w.fsWriteOk q = false) →
      (handleGenerate st w mc ratio dateF prompt uploads sess0).events =
        [Event.unexpectedError] ∧
      (handleGenerate st w mc ratio dateF prompt uploads sess0).artifacts = [] ∧
      (handleGenerate st w mc ratio dateF prompt uploads
        sess0).sess.generated_image_bytes.isSome = true) ∧
    (st.save_mode = SaveMode.s3 → st.minio_client.isSome = true →
      (∀ k, w.s3PutOk k = false) →
      Event.s3UploadFailed ∈
        (handleGenerate st w mc ratio dateF prompt uploads sess0).events ∧
      (handleGenerate st w mc ratio dateF prompt uploads sess0).artifacts = [] ∧
      (∀ q, Event.savedFilesystem q ∉
        (handleGenerate st w mc ratio dateF prompt uploads sess0).events) ∧
      Event.memoryOnlyInfo ∉
        (handleGenerate st w mc ratio dateF prompt uploads sess0).events ∧
      (handleGenerate st w mc ratio dateF prompt uploads
        sess0).sess.generated_image_bytes.isSome = true) := by
  constructor
  · intro hm hfail
    obtain ⟨fin, hrun, he, ha, hb, hi2⟩ :=
      runParts_fs_fail st w dateF hm hfail parts h0 (initLoop sess0)
    rw [handleGenerate_loopError st w mc ratio dateF prompt uploads sess0
      parts fin hp hi hup hrun]
    refine ⟨?_, ?_, hb⟩
    · show fin.events ++ [Event.unexpectedError] = [Event.unexpectedError]
      rw [he]
      rfl
    · show fin.artifacts = []
      rw [ha]
      rfl
  · intro hm hc hfail
    obtain ⟨fin, hrun, ha, he, hpres, hn⟩ :=
      runParts_s3_fail st w dateF hm hc hfail parts (initLoop sess0)
    rw [handleGenerate_loopOk st w mc ratio dateF prompt uploads sess0 parts
      fin hp hi hup hrun]
    have hbytes := hn h0
    have hfinev : fin.events =
        List.replicate (imagePartsData parts).length Event.s3UploadFailed := by
      simpa [initLoop] using he
    have hlenpos : (imagePartsData parts).length ≠ 0 := by
      intro hz
      exact h0 (List.length_eq_zero.mp hz)
    refine ⟨?_, ?_, ?_, ?_, hbytes⟩
    · show Event.s3UploadFailed ∈ summaryEvents uploads fin
      unfold summaryEvents
      simp only [List.mem_append]
      left; left
      rw [hfinev]
      exact List.mem_replicate.mpr ⟨hlenpos, rfl⟩
    · show fin.artifacts = []
      rw [ha]
      rfl
    · intro q hmem
      rcases summaryEvents_mem uploads fin _ hmem with hmem | ⟨n, hn'⟩ | hn' | ⟨t, hn'⟩
      · rw [hfinev] at hmem
        have hx := (List.mem_replicate.mp hmem).2
        simp at hx
      · simp at hn'
      · simp at hn'
      · simp at hn'
    · intro hmem
      rcases summaryEvents_mem uploads fin _ hmem with hmem | ⟨n, hn'⟩ | hn' | ⟨t, hn'⟩
      · rw [hfinev] at hmem
        have hx := (List.mem_replicate.mp hmem).2
        simp at hx
      · simp at hn'
      · simp at hn'
      · simp at hn'

/-- C5 witness: with the filesystem backend selected and every write
failing, the failure is surfaced, nothing is written, and the bytes stay
downloadable. -/
theorem write_failure_no_fallback_witness :
    (pyStrip "hi").isEmpty = false ∧ uploadsOne.img1.isNone = false ∧
    genWFsFail.upstream = Except.ok partsEg ∧ imagePartsData partsEg ≠ [] ∧
    stFS.save_mode = SaveMode.filesystem ∧
    (handleGenerate stFS genWFsFail ModelChoice.flashImagePreview "1:1" false
      "hi" uploadsOne sessEmpty).events = [Event.unexpectedError] ∧
    (handleGenerate stFS genWFsFail ModelChoice.flashImagePreview "1:1" false
      "hi" uploadsOne sessEmpty).sess.generated_image_bytes.isSome = true := by
  have h := (write_failure_no_fallback stFS genWFsFail
    ModelChoice.flashImagePreview "1:1" false "hi" uploadsOne sessEmpty
    partsEg (by decide) (by decide) rfl (by decide)).1 rfl (fun _ => rfl)
  exact ⟨by decide, by decide, rfl, by decide, rfl, h.1, h.2.2⟩

/-- C7: the filesystem validity check is existence-only, so an existing but
non-writable directory still selects Filesystem; the first write then fails
with a surfaced error while the bytes remain downloadable. -/
theorem fs_check_existence_only (env : Env) (w0 : StartupWorld) (w : GenWorld)
    (mc : ModelChoice) (ratio : String) (dateF : Bool) (prompt : String)
    (uploads : Uploads) (sess0 : SessionState) (p : String) (parts : List Part)
    (hpath : env.FILESYSTEM_SAVE_PATH = some p) (hne : p.isEmpty = false)
    (hdir : w0.isdir p = true)
    (hfail : ∀ q, w.fsWriteOk q = false)
    (hp : (pyStrip prompt).isEmpty = false) (hi : uploads.img1.isNone = false)
    (hup : w.upstream = Except.ok parts)
    (h0 : imagePartsData parts ≠ []) :
    (startup env w0).save_mode = SaveMode.filesystem ∧
    (handleGenerate (startup env w0) w mc ratio dateF prompt uploads
      sess0).events = [Event.unexpectedError] ∧
    (handleGenerate (startup env w0) w mc ratio dateF prompt uploads
      sess0).sess.generated_image_bytes.isSome = true ∧
    (handleGenerate (startup env w0) w mc ratio dateF prompt uploads
      sess0).sess.generated_image.isSome = true := by
  have hfsc : filesystem_configured env w0 = true := by
    unfold filesystem_configured
    rw [hpath]
    simp [hne, hdir]
  have hmode : (startup env w0).save_mode = SaveMode.filesystem := by
    rw [startup_save_mode]
    simp [hfsc]
  obtain ⟨fin, hrun, he, ha, hb, hi2⟩ :=
    runParts_fs_fail (startup env w0) w dateF hmode hfail parts h0 (initLoop sess0)
  rw [handleGenerate_loopError (startup env w0) w mc ratio dateF prompt uploads
    sess0 parts fin hp hi hup hrun]
  refine ⟨hmode, ?_, hb, hi2⟩
  show fin.events ++ [Event.unexpectedError] = [Event.unexpectedError]
  rw [he]
  rfl

/-- C7 witness: path set to an existing directory, every write failing. -/
theorem fs_check_existence_only_witness :
    envBoth.FILESYSTEM_SAVE_PATH = some "/data" ∧
    (startup envBoth wAllOk).save_mode = SaveMode.filesystem ∧
    (handleGenerate (startup envBoth wAllOk) genWFsFail
      ModelChoice.flashImagePreview "1:1" false "hi" uploadsOne
      sessEmpty).events = [Event.unexpectedError] := by
  have h := fs_check_existence_only envBoth wAllOk genWFsFail
    ModelChoice.flashImagePreview "1:1" false "hi" uploadsOne sessEmpty
    "/data" partsEg rfl (by decide) rfl (fun _ => rfl) (by decide) (by decide)
    rfl (by decide)
  exact ⟨rfl, h.1, h.2.1⟩

/-- C8: the derived name is `gemini_image_<YYYYMMDD_HHMMSS>.png` with the
timestamp read at persistence time; the date-folder option prefixes a
`<YYYY-MM-DD>` segment with the host separator; object-store keys use
forward slashes whichever host separator is in effect. -/
theorem filename_derivation (w : GenWorld) (dateF : Bool) (tick : Nat) :
    ((buildBaseName w false tick).1 =
      "gemini_image_" ++ strftimeCompact (w.now tick) ++ ".png") ∧
    ((buildBaseName w true tick).1 =
      strftimeDate (w.now (tick + 1)) ++ w.pathSep ++
        ("gemini_image_" ++ strftimeCompact (w.now tick) ++ ".png")) ∧
    (w.pathSep = "/" ∨ w.pathSep = "\\" →
      toSlashes (buildBaseName w dateF tick).1 =
        (if dateF then strftimeDate (w.now (tick + 1)) ++ "/" else "") ++
          ("gemini_image_" ++ strftimeCompact (w.now tick) ++ ".png")) ∧
    (∀ (st : StartupState) (ls : LoopState) (d : List Nat),
      st.save_mode = SaveMode.s3 → st.minio_client.isSome = true →
      w.s3PutOk (toSlashes (buildBaseName w dateF ls.tick).1) = true →
      (outState (stepPart st w dateF ls
        { text := none, inline_data := some d })).artifacts =
        ls.artifacts ++
          [{ backend := SaveMode.s3,
             key := toSlashes (buildBaseName w dateF ls.tick).1,
             contents := pngBytes w d, contentType := "image/png" }]) := by
  have hfname : ∀ k : Nat, (buildBaseName w false k).1 =
      "gemini_image_" ++ strftimeCompact (w.now k) ++ ".png" := fun _ => rfl
  refine ⟨hfname tick, rfl, ?_, ?_⟩
  · intro hsep
    cases dateF with
    | false =>
      show toSlashes ("gemini_image_" ++ strftimeCompact (w.now tick) ++ ".png") =
        "" ++ ("gemini_image_" ++ strftimeCompact (w.now tick) ++ ".png")
      rw [toSlashes_of_backslashFree _ (backslashFree_fname (w.now tick)),
        string_empty_append]
    | true =>
      show toSlashes (strftimeDate (w.now (tick + 1)) ++ w.pathSep ++
          ("gemini_image_" ++ strftimeCompact (w.now tick) ++ ".png")) =
        (strftimeDate (w.now (tick + 1)) ++ "/") ++
          ("gemini_image_" ++ strftimeCompact (w.now tick) ++ ".png")
      rw [toSlashes_append, toSlashes_append]
      rw [toSlashes_of_backslashFree _ (backslashFree_strftimeDate _)]
      rw [toSlashes_of_backslashFree _ (backslashFree_fname _)]
      rcases hsep with h | h <;> rw [h]
      · rw [toSlashes_slash]
      · rw [toSlashes_backslash]
  · intro st ls d hm hc hok
    rw [stepPart_img_s3_ok st w dateF ls { text := none, inline_data := some d }
      d rfl rfl hm hc hok]
    rfl

/-- C8 witness: on a backslash-separator host with the date folder enabled,
the object key uses a forward slash. -/
theorem filename_derivation_witness :
    (genWBack.pathSep = "/" ∨ genWBack.pathSep = "\\") ∧
    toSlashes (buildBaseName genWBack true 0).1 =
      (if true then strftimeDate (genWBack.now 1) ++ "/" else "") ++
        ("gemini_image_" ++ strftimeCompact (genWBack.now 0) ++ ".png") :=
  ⟨Or.inr rfl, (filename_derivation genWBack true 0).2.2.1 (Or.inr rfl)⟩

/-- C4 witness: a response with one text part and no image part yields the
no-image notice and leaves the session untouched. -/
theorem no_image_parts_recoverable_witness :
    (pyStrip "hi").isEmpty = false ∧ uploadsOne.img1.isNone = false ∧
    genWNoImage.upstream =
      Except.ok [{ text := some "nope", inline_data := none }] ∧
    imagePartsData [{ text := some "nope", inline_data := none }] = [] ∧
    Event.noImageError ∈
      (handleGenerate stFS genWNoImage ModelChoice.flashImagePreview "1:1"
        false "hi" uploadsOne sessEmpty).events :=
  ⟨by decide, by decide, rfl, by decide,
    (no_image_parts_recoverable stFS genWNoImage ModelChoice.flashImagePreview
      "1:1" false "hi" uploadsOne sessEmpty
      [{ text := some "nope", inline_data := none }]
      (by decide) (by decide) rfl (by decide)).1⟩

/-- C9 witness: concrete evaluations of the TLS flag. -/
theorem s3_secure_flag_iff_witness :
    S3_SECURE_flag none = true ∧ S3_SECURE_flag (some "1") = false :=
  ⟨s3_secure_flag_iff.2.1, s3_secure_flag_iff.2.2.2.1⟩

end Kubebanana
